import Mathlib

/-!
Verification of the storage abstraction facade (`api/extensions/ext_storage.py`).

The facade owns one backend instance and forwards `save`, `load`,
`load_once`, `load_stream`, `download`, `exists`, `delete` to it, wrapping
each forwarded call in a `timeit` instrumentation decorator (request
counter, failure counter, latency histogram, all labeled by method name and
provider) and logging a structured message on failure before re-raising the
same exception.

The embedding is a shallow one: each facade method becomes a pure function
from an explicit backend state (and a tick counter used to read a clock) to
a result, the ordered list of observable events it emitted (counter
increments, latency observations, log entries), the new backend state and
the new tick.  Exceptions are `Except` errors carrying the Python
exception's type name and message.
-/

namespace ExtStorage

/-- A Python exception value, identified by its type name and message. -/
structure PyErr where
  ty : String
  msg : String
deriving DecidableEq, Repr

/-- Object contents are byte sequences. -/
abbrev Bytes := List Nat

/-- A generator of byte chunks, as returned by `load_stream`: each step of
the iteration either yields a chunk or raises. -/
abbrev Gen := List (Except PyErr Bytes)

/-- Fully iterating a generator, stopping at the first exception raised
mid-iteration.  This happens in the caller, after `load_stream` returned. -/
def consume : Gen → Except PyErr (List Bytes)
  | [] => Except.ok []
  | Except.error e :: _ => Except.error e
  | Except.ok c :: rest => (consume rest).map (c :: ·)

/-- An observable side effect of a facade call: an increment of the total
request counter, an increment of the failed request counter, an observation
added to the latency histogram (all labeled by method and provider), or a
structured log entry naming the operation and the filename. -/
inductive Event where
  | totalInc (method provider : String)
  | failedInc (method provider : String)
  | latencyObs (method provider : String) (duration : Int)
  | logEntry (operation filename : String)
deriving DecidableEq, Repr

/-- Whether an event is an increment of the total request counter. -/
def Event.isTotal : Event → Bool
  | .totalInc _ _ => true
  | _ => false

/-- Whether an event is an increment of the failed request counter. -/
def Event.isFailed : Event → Bool
  | .failedInc _ _ => true
  | _ => false

/-- Whether an event is a latency histogram observation. -/
def Event.isLatency : Event → Bool
  | .latencyObs _ _ _ => true
  | _ => false

/-- Whether an event is a structured log entry. -/
def Event.isLog : Event → Bool
  | .logEntry _ _ => true
  | _ => false

/-- Whether an event is a latency observation carrying the given
(method, provider) label. -/
def Event.isLatencyFor (m p : String) : Event → Bool
  | .latencyObs m' p' _ => m' == m && p' == p
  | _ => false

/-- Whether an event is a failed-counter increment carrying the given
(method, provider) label. -/
def Event.isFailedFor (m p : String) : Event → Bool
  | .failedInc m' p' => m' == m && p' == p
  | _ => false

/-- Whether an event is a total-counter increment carrying the given
(method, provider) label. -/
def Event.isTotalFor (m p : String) : Event → Bool
  | .totalInc m' p' => m' == m && p' == p
  | _ => false

/-- The method (or, for a log entry, operation) label of an event. -/
def Event.methodLabel : Event → String
  | .totalInc m _ => m
  | .failedInc m _ => m
  | .latencyObs m _ _ => m
  | .logEntry op _ => op

/-- The `BaseStorage` capability contract every backend adapter satisfies,
with an explicit backend state `σ`: each operation returns a result or
raises, and may update the backend's state. -/
structure BaseStorage (σ : Type) where
  save : String → Bytes → σ → Except PyErr Unit × σ
  load_once : String → σ → Except PyErr Bytes × σ
  load_stream : String → σ → Except PyErr Gen × σ
  download : String → String → σ → Except PyErr Unit × σ
  «exists» : String → σ → Except PyErr Bool × σ
  delete : String → σ → Except PyErr Unit × σ

/-- The `timeit` decorator.  Entering the histogram's timer context reads
the clock at the current tick; then the total counter labeled
(method, provider) is incremented; then the wrapped function runs; if it
raises, the failed counter is incremented and the exception re-raised;
leaving the timer context reads the clock again and records the elapsed
duration into the latency histogram, on the success path and on the raising
path alike. -/
def timeit {σ α : Type} (clock : Nat → Int) (provider method : String)
    (f : σ → Nat → Except PyErr α × List Event × σ × Nat)
    (st : σ) (tk : Nat) : Except PyErr α × List Event × σ × Nat :=
  let t0 := clock tk
  match f st (tk + 1) with
  | (Except.ok a, evs, st', tk') =>
      (Except.ok a,
        Event.totalInc method provider :: evs
          ++ [Event.latencyObs method provider (clock tk' - t0)],
        st', tk' + 1)
  | (Except.error e, evs, st', tk') =>
      (Except.error e,
        Event.totalInc method provider :: evs
          ++ [Event.failedInc method provider,
              Event.latencyObs method provider (clock tk' - t0)],
        st', tk' + 1)

namespace Storage

/-- `Storage.save`: forwards to the backend's `save`; on an exception logs
"Failed to save file …" and re-raises the same exception.  Unlike every
other facade method, `save` carries no `timeit` decorator in the source, so
it emits no counter increment and no latency observation. -/
def save {σ : Type} (B : BaseStorage σ) (filename : String) (data : Bytes)
    (st : σ) : Except PyErr Unit × List Event × σ :=
  match B.save filename data st with
  | (Except.ok u, st') => (Except.ok u, [], st')
  | (Except.error e, st') =>
      (Except.error e, [Event.logEntry "save" filename], st')

/-- `Storage.load_once` (decorated with `timeit`): forwards to the
backend's `load_once`; on an exception logs "Failed to load_once file …"
and re-raises the same exception. -/
def load_once {σ : Type} (clock : Nat → Int) (p : String) (B : BaseStorage σ)
    (filename : String) :
    σ → Nat → Except PyErr Bytes × List Event × σ × Nat :=
  timeit clock p "load_once" (fun st tk =>
    match B.load_once filename st with
    | (Except.ok b, st') => (Except.ok b, [], st', tk)
    | (Except.error e, st') =>
        (Except.error e, [Event.logEntry "load_once" filename], st', tk))

/-- `Storage.load_stream` (decorated with `timeit`): forwards to the
backend's `load_stream`, returning the generator object without consuming
it; on an exception while obtaining the generator, logs
"Failed to load_stream file …" and re-raises the same exception. -/
def load_stream {σ : Type} (clock : Nat → Int) (p : String)
    (B : BaseStorage σ) (filename : String) :
    σ → Nat → Except PyErr Gen × List Event × σ × Nat :=
  timeit clock p "load_stream" (fun st tk =>
    match B.load_stream filename st with
    | (Except.ok g, st') => (Except.ok g, [], st', tk)
    | (Except.error e, st') =>
        (Except.error e, [Event.logEntry "load_stream" filename], st', tk))

/-- The union return type of `Storage.load`: fully materialized bytes when
`stream` is false, a lazy chunk generator when `stream` is true. -/
inductive LoadResult where
  | bytes (b : Bytes)
  | gen (g : Gen)
deriving Repr

/-- `Storage.load` (decorated with `timeit`): delegates to the facade's own
(instrumented) `load_stream` when `stream` is true and `load_once` when
false; on an exception logs "Failed to load file …" and re-raises the same
exception. -/
def load {σ : Type} (clock : Nat → Int) (p : String) (B : BaseStorage σ)
    (filename : String) (stream : Bool) :
    σ → Nat → Except PyErr LoadResult × List Event × σ × Nat :=
  timeit clock p "load" (fun st tk =>
    if stream then
      match load_stream clock p B filename st tk with
      | (Except.ok g, evs, st', tk') =>
          (Except.ok (LoadResult.gen g), evs, st', tk')
      | (Except.error e, evs, st', tk') =>
          (Except.error e, evs ++ [Event.logEntry "load" filename], st', tk')
    else
      match load_once clock p B filename st tk with
      | (Except.ok b, evs, st', tk') =>
          (Except.ok (LoadResult.bytes b), evs, st', tk')
      | (Except.error e, evs, st', tk') =>
          (Except.error e, evs ++ [Event.logEntry "load" filename], st', tk'))

/-- `Storage.download` (decorated with `timeit`): forwards to the backend's
`download`; on an exception logs "Failed to download file …" and re-raises
the same exception. -/
def download {σ : Type} (clock : Nat → Int) (p : String) (B : BaseStorage σ)
    (filename target_filepath : String) :
    σ → Nat → Except PyErr Unit × List Event × σ × Nat :=
  timeit clock p "download" (fun st tk =>
    match B.download filename target_filepath st with
    | (Except.ok u, st') => (Except.ok u, [], st', tk)
    | (Except.error e, st') =>
        (Except.error e, [Event.logEntry "download" filename], st', tk))

/-- `Storage.exists` (decorated with `timeit`): forwards to the backend's
`exists`; on an exception logs "Failed to check file exists …" and
re-raises the same exception. -/
def «exists» {σ : Type} (clock : Nat → Int) (p : String) (B : BaseStorage σ)
    (filename : String) :
    σ → Nat → Except PyErr Bool × List Event × σ × Nat :=
  timeit clock p "exists" (fun st tk =>
    match B.«exists» filename st with
    | (Except.ok b, st') => (Except.ok b, [], st', tk)
    | (Except.error e, st') =>
        (Except.error e, [Event.logEntry "exists" filename], st', tk))

/-- `Storage.delete` (decorated with `timeit`): forwards to the backend's
`delete`; on an exception logs "Failed to delete file …" and re-raises the
same exception. -/
def delete {σ : Type} (clock : Nat → Int) (p : String) (B : BaseStorage σ)
    (filename : String) :
    σ → Nat → Except PyErr Unit × List Event × σ × Nat :=
  timeit clock p "delete" (fun st tk =>
    match B.delete filename st with
    | (Except.ok u, st') => (Except.ok u, [], st', tk)
    | (Except.error e, st') =>
        (Except.error e, [Event.logEntry "delete" filename], st', tk))

end Storage

namespace StorageType

/-- Modelled from the spec: the member `StorageType.S3` of the fixed
provider-identifier enumeration (the enumeration's defining module is not
part of the given source files; its string values follow the spec's fixed
enumeration of twelve providers). -/
def S3 : String := "s3"

/-- Modelled from the spec: the generic virtual-filesystem-layer option of
the enumeration. -/
def OPENDAL : String := "opendal"

/-- Modelled from the spec: the local filesystem option of the
enumeration. -/
def LOCAL : String := "local"

/-- Modelled from the spec: the Azure Blob option of the enumeration. -/
def AZURE_BLOB : String := "azure-blob"

/-- Modelled from the spec: the Aliyun OSS option of the enumeration. -/
def ALIYUN_OSS : String := "aliyun-oss"

/-- Modelled from the spec: the Google Cloud Storage option of the
enumeration. -/
def GOOGLE_STORAGE : String := "google-storage"

/-- Modelled from the spec: the Tencent COS option of the enumeration. -/
def TENCENT_COS : String := "tencent-cos"

/-- Modelled from the spec: the Oracle OCI option of the enumeration. -/
def OCI_STORAGE : String := "oci-storage"

/-- Modelled from the spec: the Huawei OBS option of the enumeration. -/
def HUAWEI_OBS : String := "huawei-obs"

/-- Modelled from the spec: the Baidu OBS option of the enumeration. -/
def BAIDU_OBS : String := "baidu-obs"

/-- Modelled from the spec: the Volcengine TOS option of the
enumeration. -/
def VOLCENGINE_TOS : String := "volcengine-tos"

/-- Modelled from the spec: the Supabase option of the enumeration (the
source spells the member `SUPBASE`). -/
def SUPBASE : String := "supabase"

end StorageType

/-- The twelve enumerated provider identifiers, in the order of the
`match` arms of `get_storage_factory`. -/
def storageTypeList : List String :=
  [StorageType.S3, StorageType.OPENDAL, StorageType.LOCAL,
   StorageType.AZURE_BLOB, StorageType.ALIYUN_OSS,
   StorageType.GOOGLE_STORAGE, StorageType.TENCENT_COS,
   StorageType.OCI_STORAGE, StorageType.HUAWEI_OBS, StorageType.BAIDU_OBS,
   StorageType.VOLCENGINE_TOS, StorageType.SUPBASE]

/-- The zero-argument constructor returned by `get_storage_factory`: a tag
naming which adapter class it builds (the adapter classes themselves are
external collaborators), together with the configuration the constructor
closure captured. -/
inductive StorageFactory where
  | awsS3
  | openDAL (scheme : String)
  | openDALFs (root : String)
  | azureBlob
  | aliyunOss
  | googleCloud
  | tencentCos
  | oracleOCI
  | huaweiObs
  | baiduObs
  | volcengineTos
  | supabase
deriving DecidableEq, Repr

/-- `Storage.get_storage_factory`: matches the configured provider
identifier against the enumeration, case by case in source order, and
returns the corresponding zero-argument constructor; any other string
raises `ValueError("unsupported storage type …")`.  The `OPENDAL` and
`LOCAL` cases return closures capturing `dify_config.OPENDAL_SCHEME`
resp. `dify_config.STORAGE_LOCAL_PATH`, passed here as the first two
arguments. -/
def get_storage_factory (opendal_scheme storage_local_path : String)
    (storage_type : String) : Except PyErr StorageFactory :=
  if storage_type == StorageType.S3 then Except.ok StorageFactory.awsS3
  else if storage_type == StorageType.OPENDAL then
    Except.ok (StorageFactory.openDAL opendal_scheme)
  else if storage_type == StorageType.LOCAL then
    Except.ok (StorageFactory.openDALFs storage_local_path)
  else if storage_type == StorageType.AZURE_BLOB then
    Except.ok StorageFactory.azureBlob
  else if storage_type == StorageType.ALIYUN_OSS then
    Except.ok StorageFactory.aliyunOss
  else if storage_type == StorageType.GOOGLE_STORAGE then
    Except.ok StorageFactory.googleCloud
  else if storage_type == StorageType.TENCENT_COS then
    Except.ok StorageFactory.tencentCos
  else if storage_type == StorageType.OCI_STORAGE then
    Except.ok StorageFactory.oracleOCI
  else if storage_type == StorageType.HUAWEI_OBS then
    Except.ok StorageFactory.huaweiObs
  else if storage_type == StorageType.BAIDU_OBS then
    Except.ok StorageFactory.baiduObs
  else if storage_type == StorageType.VOLCENGINE_TOS then
    Except.ok StorageFactory.volcengineTos
  else if storage_type == StorageType.SUPBASE then
    Except.ok StorageFactory.supabase
  else
    Except.error ⟨"ValueError", "unsupported storage type " ++ storage_type⟩

/-- The seven public facade operations, identified for uniform statements
about instrumentation and logging. -/
inductive FacadeOp where
  | save
  | load (stream : Bool)
  | load_once
  | load_stream
  | download
  | «exists»
  | delete
deriving DecidableEq, Repr

/-- The method name under which an operation is labeled (`func.__name__`,
preserved by `functools.wraps`). -/
def FacadeOp.methodName : FacadeOp → String
  | .save => "save"
  | .load _ => "load"
  | .load_once => "load_once"
  | .load_stream => "load_stream"
  | .download => "download"
  | .«exists» => "exists"
  | .delete => "delete"

/-- Runs one facade operation, forgetting the result value but keeping the
raised exception, the emitted events, the backend state and the tick.  The
same filename, download target and payload are used for every operation so
that statements can quantify uniformly over operations. -/
def runOp {σ : Type} (clock : Nat → Int) (p : String) (B : BaseStorage σ)
    (fn tgt : String) (data : Bytes) (st : σ) (tk : Nat) :
    FacadeOp → Except PyErr Unit × List Event × σ × Nat
  | .save =>
      match Storage.save B fn data st with
      | (r, evs, st') => (r, evs, st', tk)
  | .load stream =>
      match Storage.load clock p B fn stream st tk with
      | (r, evs, st', tk') => (r.map fun _ => (), evs, st', tk')
  | .load_once =>
      match Storage.load_once clock p B fn st tk with
      | (r, evs, st', tk') => (r.map fun _ => (), evs, st', tk')
  | .load_stream =>
      match Storage.load_stream clock p B fn st tk with
      | (r, evs, st', tk') => (r.map fun _ => (), evs, st', tk')
  | .download =>
      match Storage.download clock p B fn tgt st tk with
      | (r, evs, st', tk') => (r, evs, st', tk')
  | .«exists» =>
      match Storage.«exists» clock p B fn st tk with
      | (r, evs, st', tk') => (r.map fun _ => (), evs, st', tk')
  | .delete =>
      match Storage.delete clock p B fn st tk with
      | (r, evs, st', tk') => (r, evs, st', tk')

/-- Modelled from the spec: a reference in-memory backend satisfying the
Backend Capability Contract (the concrete provider adapters are external
collaborators whose code is not among the given source files).  Its state
is an association list from keys to byte contents; `save` prepends,
`load_once` and `load_stream` look the key up and raise a not-found error
when it is absent, `load_stream` yields the content as a single chunk. -/
def mapBackend : BaseStorage (List (String × Bytes)) where
  save := fun k b st => (Except.ok (), (k, b) :: st)
  load_once := fun k st =>
    match st.lookup k with
    | some b => (Except.ok b, st)
    | none => (Except.error ⟨"FileNotFoundError", k⟩, st)
  load_stream := fun k st =>
    match st.lookup k with
    | some b => (Except.ok [Except.ok b], st)
    | none => (Except.error ⟨"FileNotFoundError", k⟩, st)
  download := fun k _ st =>
    match st.lookup k with
    | some _ => (Except.ok (), st)
    | none => (Except.error ⟨"FileNotFoundError", k⟩, st)
  «exists» := fun k st => (Except.ok (st.lookup k).isSome, st)
  delete := fun k st => (Except.ok (), st.filter fun kv => kv.1 != k)

/-- A backend every operation of which raises the given exception, used to
exercise the facade's failure paths on concrete inputs. -/
def errBackend (e : PyErr) : BaseStorage Unit where
  save := fun _ _ st => (Except.error e, st)
  load_once := fun _ st => (Except.error e, st)
  load_stream := fun _ st => (Except.error e, st)
  download := fun _ _ st => (Except.error e, st)
  «exists» := fun _ st => (Except.error e, st)
  delete := fun _ st => (Except.error e, st)

/-- A backend whose `load_stream` successfully returns the given generator
(whose iteration may itself raise), used to exercise the laziness of
`Storage.load_stream` on concrete inputs. -/
def genBackend (g : Gen) : BaseStorage Unit where
  save := fun _ _ st => (Except.ok (), st)
  load_once := fun _ st => (Except.ok [], st)
  load_stream := fun _ st => (Except.ok g, st)
  download := fun _ _ st => (Except.ok (), st)
  «exists» := fun _ st => (Except.ok true, st)
  delete := fun _ st => (Except.ok (), st)

section ShapeLemmas

variable {σ : Type} (clock : Nat → Int) (p : String) (B : BaseStorage σ)

/-- Output of `Storage.save` when the backend call succeeds. -/
theorem save_ok_shape (fn : String) (data : Bytes) (st st' : σ)
    (h : B.save fn data st = (Except.ok (), st')) :
    Storage.save B fn data st = (Except.ok (), [], st') := by
  simp [Storage.save, h]

/-- Output of `Storage.save` when the backend call raises. -/
theorem save_err_shape (fn : String) (data : Bytes) (st st' : σ) (e : PyErr)
    (h : B.save fn data st = (Except.error e, st')) :
    Storage.save B fn data st =
      (Except.error e, [Event.logEntry "save" fn], st') := by
  simp [Storage.save, h]

/-- Output of `Storage.load_once` when the backend call succeeds. -/
theorem load_once_ok_shape (fn : String) (st st' : σ) (tk : Nat) (b : Bytes)
    (h : B.load_once fn st = (Except.ok b, st')) :
    Storage.load_once clock p B fn st tk =
      (Except.ok b,
       [Event.totalInc "load_once" p,
        Event.latencyObs "load_once" p (clock (tk + 1) - clock tk)],
       st', tk + 2) := by
  simp [Storage.load_once, timeit, h]

/-- Output of `Storage.load_once` when the backend call raises. -/
theorem load_once_err_shape (fn : String) (st st' : σ) (tk : Nat) (e : PyErr)
    (h : B.load_once fn st = (Except.error e, st')) :
    Storage.load_once clock p B fn st tk =
      (Except.error e,
       [Event.totalInc "load_once" p,
        Event.logEntry "load_once" fn,
        Event.failedInc "load_once" p,
        Event.latencyObs "load_once" p (clock (tk + 1) - clock tk)],
       st', tk + 2) := by
  simp [Storage.load_once, timeit, h]

/-- Output of `Storage.load_stream` when the backend call succeeds. -/
theorem load_stream_ok_shape (fn : String) (st st' : σ) (tk : Nat) (g : Gen)
    (h : B.load_stream fn st = (Except.ok g, st')) :
    Storage.load_stream clock p B fn st tk =
      (Except.ok g,
       [Event.totalInc "load_stream" p,
        Event.latencyObs "load_stream" p (clock (tk + 1) - clock tk)],
       st', tk + 2) := by
  simp [Storage.load_stream, timeit, h]

/-- Output of `Storage.load_stream` when the backend call raises. -/
theorem load_stream_err_shape (fn : String) (st st' : σ) (tk : Nat)
    (e : PyErr) (h : B.load_stream fn st = (Except.error e, st')) :
    Storage.load_stream clock p B fn st tk =
      (Except.error e,
       [Event.totalInc "load_stream" p,
        Event.logEntry "load_stream" fn,
        Event.failedInc "load_stream" p,
        Event.latencyObs "load_stream" p (clock (tk + 1) - clock tk)],
       st', tk + 2) := by
  simp [Storage.load_stream, timeit, h]

/-- Output of `Storage.download` when the backend call succeeds. -/
theorem download_ok_shape (fn tgt : String) (st st' : σ) (tk : Nat)
    (h : B.download fn tgt st = (Except.ok (), st')) :
    Storage.download clock p B fn tgt st tk =
      (Except.ok (),
       [Event.totalInc "download" p,
        Event.latencyObs "download" p (clock (tk + 1) - clock tk)],
       st', tk + 2) := by
  simp [Storage.download, timeit, h]

/-- Output of `Storage.download` when the backend call raises. -/
theorem download_err_shape (fn tgt : String) (st st' : σ) (tk : Nat)
    (e : PyErr) (h : B.download fn tgt st = (Except.error e, st')) :
    Storage.download clock p B fn tgt st tk =
      (Except.error e,
       [Event.totalInc "download" p,
        Event.logEntry "download" fn,
        Event.failedInc "download" p,
        Event.latencyObs "download" p (clock (tk + 1) - clock tk)],
       st', tk + 2) := by
  simp [Storage.download, timeit, h]

/-- Output of `Storage.exists` when the backend call succeeds. -/
theorem exists_ok_shape (fn : String) (st st' : σ) (tk : Nat) (b : Bool)
    (h : B.«exists» fn st = (Except.ok b, st')) :
    Storage.«exists» clock p B fn st tk =
      (Except.ok b,
       [Event.totalInc "exists" p,
        Event.latencyObs "exists" p (clock (tk + 1) - clock tk)],
       st', tk + 2) := by
  simp [Storage.«exists», timeit, h]

/-- Output of `Storage.exists` when the backend call raises. -/
theorem exists_err_shape (fn : String) (st st' : σ) (tk : Nat) (e : PyErr)
    (h : B.«exists» fn st = (Except.error e, st')) :
    Storage.«exists» clock p B fn st tk =
      (Except.error e,
       [Event.totalInc "exists" p,
        Event.logEntry "exists" fn,
        Event.failedInc "exists" p,
        Event.latencyObs "exists" p (clock (tk + 1) - clock tk)],
       st', tk + 2) := by
  simp [Storage.«exists», timeit, h]

/-- Output of `Storage.delete` when the backend call succeeds. -/
theorem delete_ok_shape (fn : String) (st st' : σ) (tk : Nat)
    (h : B.delete fn st = (Except.ok (), st')) :
    Storage.delete clock p B fn st tk =
      (Except.ok (),
       [Event.totalInc "delete" p,
        Event.latencyObs "delete" p (clock (tk + 1) - clock tk)],
       st', tk + 2) := by
  simp [Storage.delete, timeit, h]

/-- Output of `Storage.delete` when the backend call raises. -/
theorem delete_err_shape (fn : String) (st st' : σ) (tk : Nat) (e : PyErr)
    (h : B.delete fn st = (Except.error e, st')) :
    Storage.delete clock p B fn st tk =
      (Except.error e,
       [Event.totalInc "delete" p,
        Event.logEntry "delete" fn,
        Event.failedInc "delete" p,
        Event.latencyObs "delete" p (clock (tk + 1) - clock tk)],
       st', tk + 2) := by
  simp [Storage.delete, timeit, h]

/-- Output of `Storage.load` with `stream = false` when the backend's
`load_once` succeeds. -/
theorem load_bytes_ok_shape (fn : String) (st st' : σ) (tk : Nat) (b : Bytes)
    (h : B.load_once fn st = (Except.ok b, st')) :
    Storage.load clock p B fn false st tk =
      (Except.ok (Storage.LoadResult.bytes b),
       [Event.totalInc "load" p,
        Event.totalInc "load_once" p,
        Event.latencyObs "load_once" p (clock (tk + 2) - clock (tk + 1)),
        Event.latencyObs "load" p (clock (tk + 3) - clock tk)],
       st', tk + 4) := by
  have h1 := load_once_ok_shape clock p B fn st st' (tk + 1) b h
  simp only [Storage.load, timeit, Bool.false_eq_true, if_false, h1]
  norm_num

/-- Output of `Storage.load` with `stream = false` when the backend's
`load_once` raises. -/
theorem load_bytes_err_shape (fn : String) (st st' : σ) (tk : Nat)
    (e : PyErr) (h : B.load_once fn st = (Except.error e, st')) :
    Storage.load clock p B fn false st tk =
      (Except.error e,
       [Event.totalInc "load" p,
        Event.totalInc "load_once" p,
        Event.logEntry "load_once" fn,
        Event.failedInc "load_once" p,
        Event.latencyObs "load_once" p (clock (tk + 2) - clock (tk + 1)),
        Event.logEntry "load" fn,
        Event.failedInc "load" p,
        Event.latencyObs "load" p (clock (tk + 3) - clock tk)],
       st', tk + 4) := by
  have h1 := load_once_err_shape clock p B fn st st' (tk + 1) e h
  simp only [Storage.load, timeit, Bool.false_eq_true, if_false, h1]
  norm_num

/-- Output of `Storage.load` with `stream = true` when the backend's
`load_stream` succeeds. -/
theorem load_gen_ok_shape (fn : String) (st st' : σ) (tk : Nat) (g : Gen)
    (h : B.load_stream fn st = (Except.ok g, st')) :
    Storage.load clock p B fn true st tk =
      (Except.ok (Storage.LoadResult.gen g),
       [Event.totalInc "load" p,
        Event.totalInc "load_stream" p,
        Event.latencyObs "load_stream" p (clock (tk + 2) - clock (tk + 1)),
        Event.latencyObs "load" p (clock (tk + 3) - clock tk)],
       st', tk + 4) := by
  have h1 := load_stream_ok_shape clock p B fn st st' (tk + 1) g h
  simp only [Storage.load, timeit, if_true, h1]
  norm_num

/-- Output of `Storage.load` with `stream = true` when the backend's
`load_stream` raises. -/
theorem load_gen_err_shape (fn : String) (st st' : σ) (tk : Nat) (e : PyErr)
    (h : B.load_stream fn st = (Except.error e, st')) :
    Storage.load clock p B fn true st tk =
      (Except.error e,
       [Event.totalInc "load" p,
        Event.totalInc "load_stream" p,
        Event.logEntry "load_stream" fn,
        Event.failedInc "load_stream" p,
        Event.latencyObs "load_stream" p (clock (tk + 2) - clock (tk + 1)),
        Event.logEntry "load" fn,
        Event.failedInc "load" p,
        Event.latencyObs "load" p (clock (tk + 3) - clock tk)],
       st', tk + 4) := by
  have h1 := load_stream_err_shape clock p B fn st st' (tk + 1) e h
  simp only [Storage.load, timeit, if_true, h1]
  norm_num

end ShapeLemmas

/-- C1: the claim fails on the code.  `Storage.save` is the one facade
operation not wrapped by the `timeit` decorator, so a `save` invocation —
here evaluated on a succeeding backend at the concrete input
`save("file.txt", bytes [97, 98, 99])` — emits no event at all: no
total-counter increment and no latency observation, where the claim
requires exactly one of each. -/
theorem save_emits_no_metric_events :
    Storage.save mapBackend "file.txt" [97, 98, 99] [] =
      (Except.ok (), ([] : List Event), [("file.txt", [97, 98, 99])]) := rfl

/-- C2: for every facade operation, an exception raised by the backend
call propagates to the caller unchanged — the same `PyErr` (type and
message) the backend raised, re-raised after logging and metric
recording. -/
theorem facade_propagates_backend_error {σ : Type} (clock : Nat → Int)
    (p : String) (B : BaseStorage σ) (fn tgt : String) (data : Bytes)
    (st : σ) (tk : Nat) (e : PyErr) :
    (∀ st', B.save fn data st = (Except.error e, st') →
      (Storage.save B fn data st).1 = Except.error e) ∧
    (∀ st', B.load_once fn st = (Except.error e, st') →
      (Storage.load_once clock p B fn st tk).1 = Except.error e ∧
      (Storage.load clock p B fn false st tk).1 = Except.error e) ∧
    (∀ st', B.load_stream fn st = (Except.error e, st') →
      (Storage.load_stream clock p B fn st tk).1 = Except.error e ∧
      (Storage.load clock p B fn true st tk).1 = Except.error e) ∧
    (∀ st', B.download fn tgt st = (Except.error e, st') →
      (Storage.download clock p B fn tgt st tk).1 = Except.error e) ∧
    (∀ st', B.«exists» fn st = (Except.error e, st') →
      (Storage.«exists» clock p B fn st tk).1 = Except.error e) ∧
    (∀ st', B.delete fn st = (Except.error e, st') →
      (Storage.delete clock p B fn st tk).1 = Except.error e) := by
  refine ⟨fun st' h => ?_, fun st' h => ⟨?_, ?_⟩, fun st' h => ⟨?_, ?_⟩,
          fun st' h => ?_, fun st' h => ?_, fun st' h => ?_⟩
  · simp [save_err_shape B fn data st st' e h]
  · simp [load_once_err_shape clock p B fn st st' tk e h]
  · simp [load_bytes_err_shape clock p B fn st st' tk e h]
  · simp [load_stream_err_shape clock p B fn st st' tk e h]
  · simp [load_gen_err_shape clock p B fn st st' tk e h]
  · simp [download_err_shape clock p B fn tgt st st' tk e h]
  · simp [exists_err_shape clock p B fn st st' tk e h]
  · simp [delete_err_shape clock p B fn st st' tk e h]

/-- Witness for C2 at a concrete backend whose every operation raises
`OSError("boom")`: each facade operation surfaces exactly that error. -/
theorem facade_propagates_backend_error_witness :
    (Storage.save (errBackend ⟨"OSError", "boom"⟩) "k" [1] ()).1 =
      Except.error ⟨"OSError", "boom"⟩ ∧
    (Storage.load_once (fun _ => 0) "local" (errBackend ⟨"OSError", "boom"⟩)
        "k" () 0).1 = Except.error ⟨"OSError", "boom"⟩ ∧
    (Storage.load (fun _ => 0) "local" (errBackend ⟨"OSError", "boom"⟩)
        "k" true () 0).1 = Except.error ⟨"OSError", "boom"⟩ ∧
    (Storage.download (fun _ => 0) "local" (errBackend ⟨"OSError", "boom"⟩)
        "k" "t" () 0).1 = Except.error ⟨"OSError", "boom"⟩ ∧
    (Storage.«exists» (fun _ => 0) "local" (errBackend ⟨"OSError", "boom"⟩)
        "k" () 0).1 = Except.error ⟨"OSError", "boom"⟩ ∧
    (Storage.delete (fun _ => 0) "local" (errBackend ⟨"OSError", "boom"⟩)
        "k" () 0).1 = Except.error ⟨"OSError", "boom"⟩ := by
  have h := facade_propagates_backend_error (fun _ => 0) "local"
    (errBackend ⟨"OSError", "boom"⟩) "k" "t" [1] () 0 ⟨"OSError", "boom"⟩
  exact ⟨h.1 () rfl, (h.2.1 () rfl).1, (h.2.2.1 () rfl).2,
         h.2.2.2.1 () rfl, h.2.2.2.2.1 () rfl, h.2.2.2.2.2 () rfl⟩

/-- C3: `get_storage_factory` is total over the twelve enumerated provider
identifiers, returning a constructor for each, and for every string not in
the enumeration it raises `ValueError("unsupported storage type …")` at
resolution time. -/
theorem get_storage_factory_total (o r s : String) :
    (s ∈ storageTypeList → ∃ f, get_storage_factory o r s = Except.ok f) ∧
    (s ∉ storageTypeList →
      get_storage_factory o r s =
        Except.error ⟨"ValueError", "unsupported storage type " ++ s⟩) := by
  constructor
  · intro hs
    simp only [storageTypeList, StorageType.S3, StorageType.OPENDAL,
      StorageType.LOCAL, StorageType.AZURE_BLOB, StorageType.ALIYUN_OSS,
      StorageType.GOOGLE_STORAGE, StorageType.TENCENT_COS,
      StorageType.OCI_STORAGE, StorageType.HUAWEI_OBS, StorageType.BAIDU_OBS,
      StorageType.VOLCENGINE_TOS, StorageType.SUPBASE,
      List.mem_cons, List.not_mem_nil, or_false] at hs
    rcases hs with rfl | rfl | rfl | rfl | rfl | rfl | rfl | rfl | rfl |
      rfl | rfl | rfl <;> exact ⟨_, rfl⟩
  · intro hs
    simp only [storageTypeList, StorageType.S3, StorageType.OPENDAL,
      StorageType.LOCAL, StorageType.AZURE_BLOB, StorageType.ALIYUN_OSS,
      StorageType.GOOGLE_STORAGE, StorageType.TENCENT_COS,
      StorageType.OCI_STORAGE, StorageType.HUAWEI_OBS, StorageType.BAIDU_OBS,
      StorageType.VOLCENGINE_TOS, StorageType.SUPBASE,
      List.mem_cons, List.not_mem_nil, or_false, not_or] at hs
    obtain ⟨h1, h2, h3, h4, h5, h6, h7, h8, h9, h10, h11, h12⟩ := hs
    simp [get_storage_factory, StorageType.S3, StorageType.OPENDAL,
      StorageType.LOCAL, StorageType.AZURE_BLOB, StorageType.ALIYUN_OSS,
      StorageType.GOOGLE_STORAGE, StorageType.TENCENT_COS,
      StorageType.OCI_STORAGE, StorageType.HUAWEI_OBS, StorageType.BAIDU_OBS,
      StorageType.VOLCENGINE_TOS, StorageType.SUPBASE,
      h1, h2, h3, h4, h5, h6, h7, h8, h9, h10, h11, h12]

/-- Witness for C3: the enumerated identifier "s3" resolves to a
constructor, and the non-enumerated string "bogus" raises the
`ValueError`. -/
theorem get_storage_factory_total_witness :
    (∃ f, get_storage_factory "x" "y" "s3" = Except.ok f) ∧
    get_storage_factory "x" "y" "bogus" =
      Except.error ⟨"ValueError", "unsupported storage type bogus"⟩ :=
  ⟨(get_storage_factory_total "x" "y" "s3").1 (by decide),
   (get_storage_factory_total "x" "y" "bogus").2 (by decide)⟩

/-- C4: every `timeit`-wrapped facade operation (all of them except the
undecorated `save`) records, whether the wrapped call returns or raises,
exactly one latency observation labeled (operation, provider), of a
non-negative duration whenever the clock is monotone; and when the call
raises, the failure counter labeled (operation, provider) is incremented
before the latency observation is taken and the exception handed back. -/
theorem timeit_latency_and_failure {σ : Type} (clock : Nat → Int)
    (hmono : Monotone clock) (p : String) (B : BaseStorage σ)
    (fn tgt : String) (data : Bytes) (st : σ) (tk : Nat) (op : FacadeOp)
    (hop : op ≠ FacadeOp.save) :
    (∃ d, 0 ≤ d ∧
      (runOp clock p B fn tgt data st tk op).2.1.filter
          (Event.isLatencyFor op.methodName p) =
        [Event.latencyObs op.methodName p d]) ∧
    ((runOp clock p B fn tgt data st tk op).1.isOk = false →
      ∃ pre d, (runOp clock p B fn tgt data st tk op).2.1 =
        pre ++ [Event.failedInc op.methodName p,
                Event.latencyObs op.methodName p d]) := by
  have hd1 : (0 : Int) ≤ clock (tk + 1) - clock tk :=
    sub_nonneg.mpr (hmono (by omega))
  have hd3 : (0 : Int) ≤ clock (tk + 3) - clock tk :=
    sub_nonneg.mpr (hmono (by omega))
  cases op with
  | save => exact absurd rfl hop
  | load stream =>
      cases stream with
      | false =>
          rcases hh : B.load_once fn st with ⟨r, st'⟩
          cases r with
          | ok b =>
              refine ⟨⟨clock (tk + 3) - clock tk, hd3, ?_⟩, fun hko => ?_⟩
              · simp [runOp, load_bytes_ok_shape clock p B fn st st' tk b hh,
                      Event.isLatencyFor, FacadeOp.methodName]
              · simp [runOp,
                      load_bytes_ok_shape clock p B fn st st' tk b hh,
                      Except.map, Except.isOk, Except.toBool] at hko
          | error e =>
              refine ⟨⟨clock (tk + 3) - clock tk, hd3, ?_⟩, fun _ => ?_⟩
              · simp [runOp, load_bytes_err_shape clock p B fn st st' tk e hh,
                      Event.isLatencyFor, FacadeOp.methodName]
              · exact ⟨[Event.totalInc "load" p, Event.totalInc "load_once" p,
                        Event.logEntry "load_once" fn,
                        Event.failedInc "load_once" p,
                        Event.latencyObs "load_once" p
                          (clock (tk + 2) - clock (tk + 1)),
                        Event.logEntry "load" fn],
                      clock (tk + 3) - clock tk,
                  by simp [runOp,
                       load_bytes_err_shape clock p B fn st st' tk e hh,
                       FacadeOp.methodName]⟩
      | true =>
          rcases hh : B.load_stream fn st with ⟨r, st'⟩
          cases r with
          | ok g =>
              refine ⟨⟨clock (tk + 3) - clock tk, hd3, ?_⟩, fun hko => ?_⟩
              · simp [runOp, load_gen_ok_shape clock p B fn st st' tk g hh,
                      Event.isLatencyFor, FacadeOp.methodName]
              · simp [runOp,
                      load_gen_ok_shape clock p B fn st st' tk g hh,
                      Except.map, Except.isOk, Except.toBool] at hko
          | error e =>
              refine ⟨⟨clock (tk + 3) - clock tk, hd3, ?_⟩, fun _ => ?_⟩
              · simp [runOp, load_gen_err_shape clock p B fn st st' tk e hh,
                      Event.isLatencyFor, FacadeOp.methodName]
              · exact ⟨[Event.totalInc "load" p,
                        Event.totalInc "load_stream" p,
                        Event.logEntry "load_stream" fn,
                        Event.failedInc "load_stream" p,
                        Event.latencyObs "load_stream" p
                          (clock (tk + 2) - clock (tk + 1)),
                        Event.logEntry "load" fn],
                      clock (tk + 3) - clock tk,
                  by simp [runOp,
                       load_gen_err_shape clock p B fn st st' tk e hh,
                       FacadeOp.methodName]⟩
  | load_once =>
      rcases hh : B.load_once fn st with ⟨r, st'⟩
      cases r with
      | ok b =>
          refine ⟨⟨clock (tk + 1) - clock tk, hd1, ?_⟩, fun hko => ?_⟩
          · simp [runOp, load_once_ok_shape clock p B fn st st' tk b hh,
                  Event.isLatencyFor, FacadeOp.methodName]
          · simp [runOp, load_once_ok_shape clock p B fn st st' tk b hh,
                  Except.map, Except.isOk, Except.toBool] at hko
      | error e =>
          refine ⟨⟨clock (tk + 1) - clock tk, hd1, ?_⟩, fun _ => ?_⟩
          · simp [runOp, load_once_err_shape clock p B fn st st' tk e hh,
                  Event.isLatencyFor, FacadeOp.methodName]
          · exact ⟨[Event.totalInc "load_once" p, Event.logEntry "load_once" fn],
                  clock (tk + 1) - clock tk,
              by simp [runOp, load_once_err_shape clock p B fn st st' tk e hh,
                       FacadeOp.methodName]⟩
  | load_stream =>
      rcases hh : B.load_stream fn st with ⟨r, st'⟩
      cases r with
      | ok g =>
          refine ⟨⟨clock (tk + 1) - clock tk, hd1, ?_⟩, fun hko => ?_⟩
          · simp [runOp, load_stream_ok_shape clock p B fn st st' tk g hh,
                  Event.isLatencyFor, FacadeOp.methodName]
          · simp [runOp, load_stream_ok_shape clock p B fn st st' tk g hh,
                  Except.map, Except.isOk, Except.toBool] at hko
      | error e =>
          refine ⟨⟨clock (tk + 1) - clock tk, hd1, ?_⟩, fun _ => ?_⟩
          · simp [runOp, load_stream_err_shape clock p B fn st st' tk e hh,
                  Event.isLatencyFor, FacadeOp.methodName]
          · exact ⟨[Event.totalInc "load_stream" p,
                    Event.logEntry "load_stream" fn],
                  clock (tk + 1) - clock tk,
              by simp [runOp, load_stream_err_shape clock p B fn st st' tk e hh,
                       FacadeOp.methodName]⟩
  | download =>
      rcases hh : B.download fn tgt st with ⟨r, st'⟩
      cases r with
      | ok u =>
          cases u
          refine ⟨⟨clock (tk + 1) - clock tk, hd1, ?_⟩, fun hko => ?_⟩
          · simp [runOp, download_ok_shape clock p B fn tgt st st' tk hh,
                  Event.isLatencyFor, FacadeOp.methodName]
          · simp [runOp, download_ok_shape clock p B fn tgt st st' tk hh,
                  Except.map, Except.isOk, Except.toBool] at hko
      | error e =>
          refine ⟨⟨clock (tk + 1) - clock tk, hd1, ?_⟩, fun _ => ?_⟩
          · simp [runOp, download_err_shape clock p B fn tgt st st' tk e hh,
                  Event.isLatencyFor, FacadeOp.methodName]
          · exact ⟨[Event.totalInc "download" p, Event.logEntry "download" fn],
                  clock (tk + 1) - clock tk,
              by simp [runOp, download_err_shape clock p B fn tgt st st' tk e hh,
                       FacadeOp.methodName]⟩
  | «exists» =>
      rcases hh : B.«exists» fn st with ⟨r, st'⟩
      cases r with
      | ok b =>
          refine ⟨⟨clock (tk + 1) - clock tk, hd1, ?_⟩, fun hko => ?_⟩
          · simp [runOp, exists_ok_shape clock p B fn st st' tk b hh,
                  Event.isLatencyFor, FacadeOp.methodName]
          · simp [runOp, exists_ok_shape clock p B fn st st' tk b hh,
                  Except.map, Except.isOk, Except.toBool] at hko
      | error e =>
          refine ⟨⟨clock (tk + 1) - clock tk, hd1, ?_⟩, fun _ => ?_⟩
          · simp [runOp, exists_err_shape clock p B fn st st' tk e hh,
                  Event.isLatencyFor, FacadeOp.methodName]
          · exact ⟨[Event.totalInc "exists" p, Event.logEntry "exists" fn],
                  clock (tk + 1) - clock tk,
              by simp [runOp, exists_err_shape clock p B fn st st' tk e hh,
                       FacadeOp.methodName]⟩
  | delete =>
      rcases hh : B.delete fn st with ⟨r, st'⟩
      cases r with
      | ok u =>
          cases u
          refine ⟨⟨clock (tk + 1) - clock tk, hd1, ?_⟩, fun hko => ?_⟩
          · simp [runOp, delete_ok_shape clock p B fn st st' tk hh,
                  Event.isLatencyFor, FacadeOp.methodName]
          · simp [runOp, delete_ok_shape clock p B fn st st' tk hh,
                  Except.map, Except.isOk, Except.toBool] at hko
      | error e =>
          refine ⟨⟨clock (tk + 1) - clock tk, hd1, ?_⟩, fun _ => ?_⟩
          · simp [runOp, delete_err_shape clock p B fn st st' tk e hh,
                  Event.isLatencyFor, FacadeOp.methodName]
          · exact ⟨[Event.totalInc "delete" p, Event.logEntry "delete" fn],
                  clock (tk + 1) - clock tk,
              by simp [runOp, delete_err_shape clock p B fn st st' tk e hh,
                       FacadeOp.methodName]⟩

/-- Witness for C4 with the identity clock, a raising backend and the
`delete` operation at a concrete input. -/
theorem timeit_latency_and_failure_witness :
    (∃ d, 0 ≤ d ∧
      (runOp (fun n => (n : Int)) "local" (errBackend ⟨"OSError", "boom"⟩)
          "k" "t" [1] () 0 FacadeOp.delete).2.1.filter
          (Event.isLatencyFor "delete" "local") =
        [Event.latencyObs "delete" "local" d]) ∧
    (∃ pre d, (runOp (fun n => (n : Int)) "local"
          (errBackend ⟨"OSError", "boom"⟩) "k" "t" [1] () 0
          FacadeOp.delete).2.1 =
        pre ++ [Event.failedInc "delete" "local",
                Event.latencyObs "delete" "local" d]) :=
  ⟨(timeit_latency_and_failure (fun n => (n : Int))
      (fun a b hab => by simp only []; exact_mod_cast hab) "local"
      (errBackend ⟨"OSError", "boom"⟩) "k" "t" [1] () 0 FacadeOp.delete
      (by simp)).1,
   (timeit_latency_and_failure (fun n => (n : Int))
      (fun a b hab => by simp only []; exact_mod_cast hab) "local"
      (errBackend ⟨"OSError", "boom"⟩) "k" "t" [1] () 0 FacadeOp.delete
      (by simp)).2 rfl⟩

/-- C5: `Storage.load` with `stream = false` returns exactly the bytes the
backend's `load_once` returned, and with `stream = true` returns exactly
the lazy chunk generator the backend's `load_stream` returned. -/
theorem load_delegates {σ : Type} (clock : Nat → Int) (p : String)
    (B : BaseStorage σ) (fn : String) (st : σ) (tk : Nat) :
    (∀ b st', B.load_once fn st = (Except.ok b, st') →
      (Storage.load clock p B fn false st tk).1 =
        Except.ok (Storage.LoadResult.bytes b)) ∧
    (∀ g st', B.load_stream fn st = (Except.ok g, st') →
      (Storage.load clock p B fn true st tk).1 =
        Except.ok (Storage.LoadResult.gen g)) := by
  refine ⟨fun b st' h => ?_, fun g st' h => ?_⟩
  · simp [load_bytes_ok_shape clock p B fn st st' tk b h]
  · simp [load_gen_ok_shape clock p B fn st st' tk g h]

/-- Witness for C5 on the reference backend holding `"k" ↦ [1, 2]`. -/
theorem load_delegates_witness :
    (Storage.load (fun _ => 0) "local" mapBackend "k" false
        [("k", [1, 2])] 0).1 =
      Except.ok (Storage.LoadResult.bytes [1, 2]) ∧
    (Storage.load (fun _ => 0) "local" mapBackend "k" true
        [("k", [1, 2])] 0).1 =
      Except.ok (Storage.LoadResult.gen [Except.ok [1, 2]]) := by
  have h := load_delegates (fun _ => 0) "local" mapBackend "k"
    [("k", [1, 2])] 0
  exact ⟨h.1 [1, 2] [("k", [1, 2])] rfl,
         h.2 [Except.ok [1, 2]] [("k", [1, 2])] rfl⟩

/-- C6: on the reference backend, a successful `save(k, b)` followed by
`load_once(k)` on the resulting state, with no intervening operation,
returns exactly `b`. -/
theorem save_then_load_once_roundtrip (clock : Nat → Int) (p k : String)
    (b : Bytes) (st : List (String × Bytes)) (tk : Nat) :
    (Storage.save mapBackend k b st).1 = Except.ok () ∧
    (Storage.load_once clock p mapBackend k
        (Storage.save mapBackend k b st).2.2 tk).1 = Except.ok b := by
  have hsave : mapBackend.save k b st = (Except.ok (), (k, b) :: st) := rfl
  have hst : (Storage.save mapBackend k b st).2.2 = (k, b) :: st := by
    simp [save_ok_shape mapBackend k b st ((k, b) :: st) hsave]
  have hload : mapBackend.load_once k ((k, b) :: st) =
      (Except.ok b, (k, b) :: st) := by
    simp [mapBackend, List.lookup]
  refine ⟨by simp [save_ok_shape mapBackend k b st ((k, b) :: st) hsave], ?_⟩
  rw [hst]
  simp [load_once_ok_shape clock p mapBackend k ((k, b) :: st)
    ((k, b) :: st) tk b hload]

/-- C7: a facade operation call that succeeds leaves the failure counter
untouched: the events of a successful call contain no failed-counter
increment under any label. -/
theorem success_no_failure_counter {σ : Type} (clock : Nat → Int)
    (p : String) (B : BaseStorage σ) (fn tgt : String) (data : Bytes)
    (st : σ) (tk : Nat) (op : FacadeOp)
    (hok : (runOp clock p B fn tgt data st tk op).1.isOk = true) :
    (runOp clock p B fn tgt data st tk op).2.1.filter Event.isFailed = [] := by
  cases op with
  | save =>
      rcases hh : B.save fn data st with ⟨r, st'⟩
      cases r with
      | ok u => cases u; simp [runOp, save_ok_shape B fn data st st' hh]
      | error e =>
          simp [runOp, save_err_shape B fn data st st' e hh,
                Except.isOk, Except.toBool] at hok
  | load stream =>
      cases stream with
      | false =>
          rcases hh : B.load_once fn st with ⟨r, st'⟩
          cases r with
          | ok b =>
              simp [runOp, load_bytes_ok_shape clock p B fn st st' tk b hh,
                    Event.isFailed]
          | error e =>
              simp [runOp, load_bytes_err_shape clock p B fn st st' tk e hh,
                    Except.map, Except.isOk, Except.toBool] at hok
      | true =>
          rcases hh : B.load_stream fn st with ⟨r, st'⟩
          cases r with
          | ok g =>
              simp [runOp, load_gen_ok_shape clock p B fn st st' tk g hh,
                    Event.isFailed]
          | error e =>
              simp [runOp, load_gen_err_shape clock p B fn st st' tk e hh,
                    Except.map, Except.isOk, Except.toBool] at hok
  | load_once =>
      rcases hh : B.load_once fn st with ⟨r, st'⟩
      cases r with
      | ok b =>
          simp [runOp, load_once_ok_shape clock p B fn st st' tk b hh,
                Event.isFailed]
      | error e =>
          simp [runOp, load_once_err_shape clock p B fn st st' tk e hh,
                Except.map, Except.isOk, Except.toBool] at hok
  | load_stream =>
      rcases hh : B.load_stream fn st with ⟨r, st'⟩
      cases r with
      | ok g =>
          simp [runOp, load_stream_ok_shape clock p B fn st st' tk g hh,
                Event.isFailed]
      | error e =>
          simp [runOp, load_stream_err_shape clock p B fn st st' tk e hh,
                Except.map, Except.isOk, Except.toBool] at hok
  | download =>
      rcases hh : B.download fn tgt st with ⟨r, st'⟩
      cases r with
      | ok u =>
          cases u
          simp [runOp, download_ok_shape clock p B fn tgt st st' tk hh,
                Event.isFailed]
      | error e =>
          simp [runOp, download_err_shape clock p B fn tgt st st' tk e hh,
                Except.isOk, Except.toBool] at hok
  | «exists» =>
      rcases hh : B.«exists» fn st with ⟨r, st'⟩
      cases r with
      | ok b =>
          simp [runOp, exists_ok_shape clock p B fn st st' tk b hh,
                Event.isFailed]
      | error e =>
          simp [runOp, exists_err_shape clock p B fn st st' tk e hh,
                Except.map, Except.isOk, Except.toBool] at hok
  | delete =>
      rcases hh : B.delete fn st with ⟨r, st'⟩
      cases r with
      | ok u =>
          cases u
          simp [runOp, delete_ok_shape clock p B fn st st' tk hh,
                Event.isFailed]
      | error e =>
          simp [runOp, delete_err_shape clock p B fn st st' tk e hh,
                Except.isOk, Except.toBool] at hok

/-- Witness for C7: a successful `delete` on the reference backend emits
no failed-counter increment. -/
theorem success_no_failure_counter_witness :
    (runOp (fun _ => 0) "local" mapBackend "k" "t" [1] [("k", [5])] 0
        FacadeOp.delete).2.1.filter Event.isFailed = [] :=
  success_no_failure_counter (fun _ => 0) "local" mapBackend "k" "t" [1]
    [("k", [5])] 0 FacadeOp.delete rfl

/-- C8: for every facade operation, a structured log entry naming the
operation and the filename is written exactly when the backend call raises,
and a successful call writes no log entry at all. -/
theorem log_iff_failure {σ : Type} (clock : Nat → Int) (p : String)
    (B : BaseStorage σ) (fn tgt : String) (data : Bytes) (st : σ) (tk : Nat)
    (op : FacadeOp) :
    (Event.logEntry op.methodName fn ∈
        (runOp clock p B fn tgt data st tk op).2.1 ↔
      (runOp clock p B fn tgt data st tk op).1.isOk = false) ∧
    ((runOp clock p B fn tgt data st tk op).1.isOk = true →
      (runOp clock p B fn tgt data st tk op).2.1.filter Event.isLog = []) := by
  cases op with
  | save =>
      rcases hh : B.save fn data st with ⟨r, st'⟩
      cases r with
      | ok u =>
          cases u
          simp [runOp, save_ok_shape B fn data st st' hh,
                Except.isOk, Except.toBool, FacadeOp.methodName]
      | error e =>
          simp [runOp, save_err_shape B fn data st st' e hh,
                Except.isOk, Except.toBool, FacadeOp.methodName]
  | load stream =>
      cases stream with
      | false =>
          rcases hh : B.load_once fn st with ⟨r, st'⟩
          cases r with
          | ok b =>
              simp [runOp, load_bytes_ok_shape clock p B fn st st' tk b hh,
                    Except.map, Except.isOk, Except.toBool,
                    FacadeOp.methodName, Event.isLog]
          | error e =>
              simp [runOp, load_bytes_err_shape clock p B fn st st' tk e hh,
                    Except.map, Except.isOk, Except.toBool,
                    FacadeOp.methodName]
      | true =>
          rcases hh : B.load_stream fn st with ⟨r, st'⟩
          cases r with
          | ok g =>
              simp [runOp, load_gen_ok_shape clock p B fn st st' tk g hh,
                    Except.map, Except.isOk, Except.toBool,
                    FacadeOp.methodName, Event.isLog]
          | error e =>
              simp [runOp, load_gen_err_shape clock p B fn st st' tk e hh,
                    Except.map, Except.isOk, Except.toBool,
                    FacadeOp.methodName]
  | load_once =>
      rcases hh : B.load_once fn st with ⟨r, st'⟩
      cases r with
      | ok b =>
          simp [runOp, load_once_ok_shape clock p B fn st st' tk b hh,
                Except.map, Except.isOk, Except.toBool,
                FacadeOp.methodName, Event.isLog]
      | error e =>
          simp [runOp, load_once_err_shape clock p B fn st st' tk e hh,
                Except.map, Except.isOk, Except.toBool, FacadeOp.methodName]
  | load_stream =>
      rcases hh : B.load_stream fn st with ⟨r, st'⟩
      cases r with
      | ok g =>
          simp [runOp, load_stream_ok_shape clock p B fn st st' tk g hh,
                Except.map, Except.isOk, Except.toBool,
                FacadeOp.methodName, Event.isLog]
      | error e =>
          simp [runOp, load_stream_err_shape clock p B fn st st' tk e hh,
                Except.map, Except.isOk, Except.toBool, FacadeOp.methodName]
  | download =>
      rcases hh : B.download fn tgt st with ⟨r, st'⟩
      cases r with
      | ok u =>
          cases u
          simp [runOp, download_ok_shape clock p B fn tgt st st' tk hh,
                Except.isOk, Except.toBool, FacadeOp.methodName, Event.isLog]
      | error e =>
          simp [runOp, download_err_shape clock p B fn tgt st st' tk e hh,
                Except.isOk, Except.toBool, FacadeOp.methodName]
  | «exists» =>
      rcases hh : B.«exists» fn st with ⟨r, st'⟩
      cases r with
      | ok b =>
          simp [runOp, exists_ok_shape clock p B fn st st' tk b hh,
                Except.map, Except.isOk, Except.toBool,
                FacadeOp.methodName, Event.isLog]
      | error e =>
          simp [runOp, exists_err_shape clock p B fn st st' tk e hh,
                Except.map, Except.isOk, Except.toBool, FacadeOp.methodName]
  | delete =>
      rcases hh : B.delete fn st with ⟨r, st'⟩
      cases r with
      | ok u =>
          cases u
          simp [runOp, delete_ok_shape clock p B fn st st' tk hh,
                Except.isOk, Except.toBool, FacadeOp.methodName, Event.isLog]
      | error e =>
          simp [runOp, delete_err_shape clock p B fn st st' tk e hh,
                Except.isOk, Except.toBool, FacadeOp.methodName]

/-- Witness for C8: a successful `delete` on the reference backend writes
no log entry, and the if-and-only-if holds there. -/
theorem log_iff_failure_witness :
    (Event.logEntry "delete" "k" ∈
        (runOp (fun _ => 0) "local" mapBackend "k" "t" [1] [("k", [5])] 0
          FacadeOp.delete).2.1 ↔
      (runOp (fun _ => 0) "local" mapBackend "k" "t" [1] [("k", [5])] 0
          FacadeOp.delete).1.isOk = false) ∧
    (runOp (fun _ => 0) "local" mapBackend "k" "t" [1] [("k", [5])] 0
        FacadeOp.delete).2.1.filter Event.isLog = [] :=
  ⟨(log_iff_failure (fun _ => 0) "local" mapBackend "k" "t" [1]
      [("k", [5])] 0 FacadeOp.delete).1,
   (log_iff_failure (fun _ => 0) "local" mapBackend "k" "t" [1]
      [("k", [5])] 0 FacadeOp.delete).2 rfl⟩

/-- C9: a single `Storage.load` call emits two total-counter increments
and two latency observations, one labeled "load" and one labeled by the
delegated operation ("load_stream" when `stream` is true, "load_once" when
false), because `load` delegates to the facade's own instrumented
methods. -/
theorem load_double_instrumentation {σ : Type} (clock : Nat → Int)
    (p : String) (B : BaseStorage σ) (fn : String) (st : σ) (tk : Nat)
    (stream : Bool) :
    (Storage.load clock p B fn stream st tk).2.1.filter Event.isTotal =
      [Event.totalInc "load" p,
       Event.totalInc (if stream then "load_stream" else "load_once") p] ∧
    ∃ d1 d2,
      (Storage.load clock p B fn stream st tk).2.1.filter Event.isLatency =
        [Event.latencyObs (if stream then "load_stream" else "load_once")
           p d1,
         Event.latencyObs "load" p d2] := by
  cases stream with
  | false =>
      rcases hh : B.load_once fn st with ⟨r, st'⟩
      cases r with
      | ok b =>
          refine ⟨?_, clock (tk + 2) - clock (tk + 1),
                  clock (tk + 3) - clock tk, ?_⟩ <;>
            simp [load_bytes_ok_shape clock p B fn st st' tk b hh,
                  Event.isTotal, Event.isLatency]
      | error e =>
          refine ⟨?_, clock (tk + 2) - clock (tk + 1),
                  clock (tk + 3) - clock tk, ?_⟩ <;>
            simp [load_bytes_err_shape clock p B fn st st' tk e hh,
                  Event.isTotal, Event.isLatency]
  | true =>
      rcases hh : B.load_stream fn st with ⟨r, st'⟩
      cases r with
      | ok g =>
          refine ⟨?_, clock (tk + 2) - clock (tk + 1),
                  clock (tk + 3) - clock tk, ?_⟩ <;>
            simp [load_gen_ok_shape clock p B fn st st' tk g hh,
                  Event.isTotal, Event.isLatency]
      | error e =>
          refine ⟨?_, clock (tk + 2) - clock (tk + 1),
                  clock (tk + 3) - clock tk, ?_⟩ <;>
            simp [load_gen_err_shape clock p B fn st st' tk e hh,
                  Event.isTotal, Event.isLatency]

/-- C10: `Storage.load_stream` hands the backend's generator to the caller
without consuming it, so an exception raised while iterating the chunks —
`consume g` failing — happens outside the instrumented and logged region
and leaves the events free of failure increments and log entries; only an
exception raised while obtaining the generator is counted and logged. -/
theorem load_stream_unconsumed {σ : Type} (clock : Nat → Int) (p : String)
    (B : BaseStorage σ) (fn : String) (st : σ) (tk : Nat) :
    (∀ g st' e', B.load_stream fn st = (Except.ok g, st') →
      consume g = Except.error e' →
      (Storage.load_stream clock p B fn st tk).1 = Except.ok g ∧
      (Storage.load_stream clock p B fn st tk).2.1.filter Event.isFailed
        = [] ∧
      (Storage.load_stream clock p B fn st tk).2.1.filter Event.isLog
        = []) ∧
    (∀ e st', B.load_stream fn st = (Except.error e, st') →
      (Storage.load_stream clock p B fn st tk).1 = Except.error e ∧
      Event.failedInc "load_stream" p ∈
        (Storage.load_stream clock p B fn st tk).2.1 ∧
      Event.logEntry "load_stream" fn ∈
        (Storage.load_stream clock p B fn st tk).2.1) := by
  refine ⟨fun g st' e' h _ => ?_, fun e st' h => ?_⟩
  · refine ⟨?_, ?_, ?_⟩ <;>
      simp [load_stream_ok_shape clock p B fn st st' tk g h,
            Event.isFailed, Event.isLog]
  · refine ⟨?_, ?_, ?_⟩ <;>
      simp [load_stream_err_shape clock p B fn st st' tk e h]

/-- Witness for C10: a backend returning the one-step generator that
raises `IOError("net")` on iteration — the facade returns it intact with
no failure increment and no log entry — and a backend raising while the
generator is obtained, which is counted and logged. -/
theorem load_stream_unconsumed_witness :
    ((Storage.load_stream (fun _ => 0) "local"
        (genBackend [Except.error ⟨"IOError", "net"⟩]) "k" () 0).1 =
      Except.ok [Except.error ⟨"IOError", "net"⟩] ∧
     (Storage.load_stream (fun _ => 0) "local"
        (genBackend [Except.error ⟨"IOError", "net"⟩]) "k" () 0).2.1.filter
          Event.isFailed = [] ∧
     (Storage.load_stream (fun _ => 0) "local"
        (genBackend [Except.error ⟨"IOError", "net"⟩]) "k" () 0).2.1.filter
          Event.isLog = []) ∧
    ((Storage.load_stream (fun _ => 0) "local"
        (errBackend ⟨"OSError", "boom"⟩) "k" () 0).1 =
      Except.error ⟨"OSError", "boom"⟩ ∧
     Event.failedInc "load_stream" "local" ∈
       (Storage.load_stream (fun _ => 0) "local"
          (errBackend ⟨"OSError", "boom"⟩) "k" () 0).2.1 ∧
     Event.logEntry "load_stream" "k" ∈
       (Storage.load_stream (fun _ => 0) "local"
          (errBackend ⟨"OSError", "boom"⟩) "k" () 0).2.1) :=
  ⟨(load_stream_unconsumed (fun _ => 0) "local"
      (genBackend [Except.error ⟨"IOError", "net"⟩]) "k" () 0).1
      [Except.error ⟨"IOError", "net"⟩] () ⟨"IOError", "net"⟩ rfl rfl,
   (load_stream_unconsumed (fun _ => 0) "local"
      (errBackend ⟨"OSError", "boom"⟩) "k" () 0).2
      ⟨"OSError", "boom"⟩ () rfl⟩

end ExtStorage
